import Mathlib

/-
Verification of the pixel-format conversion layer of the blackmagic-output
repository.  The Python sources under src/src/blackmagic_io and the wire-format
readers in src/tests/test_conversion_ranges.py are shallowly embedded as Lean
definitions; the numeric conversion engine itself lives in a C++ extension that
is not part of the inspected sources, so its range mapper and color matrix are
modelled from the design document (sections 4.1 and 4.2), and the bit layouts
are pinned by the in-repository test readers.

Machine words are modelled as Nat with explicit masking; normalized sample
values are modelled as rationals.
-/

namespace Blackmagic

/-! ## Wire formats: v210 (10-bit 4:2:2) and the 10-bit RGB word -/

/-- One unpacked 4:2:2 sample triple, ten bits per component. -/
structure YCbCr where
  y : Nat
  cb : Nat
  cr : Nat
deriving DecidableEq, Repr

/-- Embedding of unpack_v210_pixel from src/tests/test_conversion_ranges.py
(lines 18-67).  The v210 buffer is modelled as its stream of little-endian
32-bit words, index to word value.  The width parameter of the Python function
is unused there and omitted here.  Six pixels share four words; the word and
bit offset holding each component is fixed by the pixel position within its
group. -/
def unpack_v210_pixel (dwords : Nat → Nat) (pixel_index : Nat) : YCbCr :=
  let group_index := (pixel_index / 6) * 4
  let d0 := dwords group_index
  let d1 := dwords (group_index + 1)
  let d2 := dwords (group_index + 2)
  let d3 := dwords (group_index + 3)
  match pixel_index % 6 with
  | 0 => ⟨(d0 >>> 10) &&& 0x3FF, d0 &&& 0x3FF, (d0 >>> 20) &&& 0x3FF⟩
  | 1 => ⟨d1 &&& 0x3FF, d0 &&& 0x3FF, (d0 >>> 20) &&& 0x3FF⟩
  | 2 => ⟨(d1 >>> 20) &&& 0x3FF, (d1 >>> 10) &&& 0x3FF, d2 &&& 0x3FF⟩
  | 3 => ⟨(d2 >>> 10) &&& 0x3FF, (d1 >>> 10) &&& 0x3FF, d2 &&& 0x3FF⟩
  | 4 => ⟨d3 &&& 0x3FF, (d2 >>> 20) &&& 0x3FF, (d3 >>> 10) &&& 0x3FF⟩
  | _ => ⟨(d3 >>> 20) &&& 0x3FF, (d2 >>> 20) &&& 0x3FF, (d3 >>> 10) &&& 0x3FF⟩

/-- One unpacked RGB triple. -/
structure RGBTriple where
  r : Nat
  g : Nat
  b : Nat
deriving DecidableEq, Repr

/-- Embedding of the 10-bit RGB word reader from
src/tests/test_conversion_ranges.py (lines 273-276): R is taken from bits
[31:22] of the little-endian word, G from [21:12], B from [11:2]. -/
def unpack_rgb10_pixel (w : Nat) : RGBTriple :=
  ⟨(w >>> 22) &&& 0x3FF, (w >>> 12) &&& 0x3FF, (w >>> 2) &&& 0x3FF⟩

/-- Modelled from the spec: the 10-bit 4:4:4 RGB packer, which lives in the
decklink_io C++ extension and is not under the inspected sources.  One pixel
becomes one 32-bit word.  The field positions are pinned by the reader
unpack_rgb10_pixel above, which the repository test suite validates against the
real encoder output (narrow-range white code 940 is read back from bits
[31:22], [21:12] and [11:2]). -/
def pack_rgb10_pixel (r g b : Nat) : Nat :=
  r * 2 ^ 22 + g * 2 ^ 12 + b * 2 ^ 2

/-- Direct formalization of the field positions stated by the spec sentence for
the 10-bit RGB word: R at bits [29:20], G at [19:10], B at [9:0]. -/
def spec_read_rgb10_pixel (w : Nat) : RGBTriple :=
  ⟨(w >>> 20) &&& 0x3FF, (w >>> 10) &&& 0x3FF, w &&& 0x3FF⟩

/-- Claim C1 counterexample: for the narrow-range white pixel (940, 940, 940),
whose encoded word the test suite pins down, reading the bit positions claimed
by the spec ([29:20] for R, [19:10] for G, [9:0] for B) does not recover the
code values, while the word layout validated by the tests places R at [31:22],
G at [21:12] and B at [11:2]. -/
theorem c1_rgb10_spec_offsets_counterexample :
    unpack_rgb10_pixel (pack_rgb10_pixel 940 940 940) = ⟨940, 940, 940⟩ ∧
    spec_read_rgb10_pixel (pack_rgb10_pixel 940 940 940) ≠ ⟨940, 940, 940⟩ := by
  decide

/-- Claim C1 (amended): each encoded 10-bit 4:4:4 RGB pixel occupies exactly
one little-endian 32-bit word with the 10-bit fields at bit offsets [31:22]=R,
[21:12]=G, [11:2]=B, and the low 2 bits unused and zero; reading those bit
positions of the word recovers the R, G and B code values. -/
theorem c1_rgb10_word_layout (r g b : Nat)
    (hr : r < 1024) (hg : g < 1024) (hb : b < 1024) :
    unpack_rgb10_pixel (pack_rgb10_pixel r g b) = ⟨r, g, b⟩ ∧
    pack_rgb10_pixel r g b &&& 3 = 0 ∧
    pack_rgb10_pixel r g b < 2 ^ 32 := by
  have hmask10 : ∀ x : Nat, x &&& 1023 = x % 1024 := by
    intro x
    have h := Nat.and_pow_two_sub_one_eq_mod x 10
    norm_num at h
    exact h
  have hmask2 : ∀ x : Nat, x &&& 3 = x % 4 := by
    intro x
    have h := Nat.and_pow_two_sub_one_eq_mod x 2
    norm_num at h
    exact h
  refine ⟨?_, ?_, ?_⟩
  · simp only [unpack_rgb10_pixel, pack_rgb10_pixel, Nat.shiftRight_eq_div_pow,
      hmask10, RGBTriple.mk.injEq]
    norm_num
    omega
  · rw [hmask2]
    simp only [pack_rgb10_pixel]
    omega
  · simp only [pack_rgb10_pixel]
    norm_num
    omega

/-- Claim C1 witness: the amended layout theorem applied at the concrete
narrow-range white pixel (940, 940, 940). -/
theorem c1_rgb10_word_layout_witness :
    unpack_rgb10_pixel (pack_rgb10_pixel 940 940 940) = ⟨940, 940, 940⟩ ∧
    pack_rgb10_pixel 940 940 940 &&& 3 = 0 ∧
    pack_rgb10_pixel 940 940 940 < 2 ^ 32 :=
  c1_rgb10_word_layout 940 940 940 (by decide) (by decide) (by decide)

/-- Claim C2: v210 pixels are addressed by the fixed six-pixel-group table.
First conjunct: the two pixels of every horizontal pair (indices 2k and 2k+1)
unpack to identical Cb and Cr.  Second conjunct: the unpacked triple of pixel p
depends only on the four consecutive words of group p / 6, so a group occupies
exactly those four little-endian 32-bit words. -/
theorem c2_v210_group_layout :
    (∀ (dwords : Nat → Nat) (k : Nat),
      (unpack_v210_pixel dwords (2 * k)).cb = (unpack_v210_pixel dwords (2 * k + 1)).cb ∧
      (unpack_v210_pixel dwords (2 * k)).cr = (unpack_v210_pixel dwords (2 * k + 1)).cr) ∧
    (∀ (dwordsA dwordsB : Nat → Nat) (p : Nat),
      (∀ i, i < 4 → dwordsA (p / 6 * 4 + i) = dwordsB (p / 6 * 4 + i)) →
      unpack_v210_pixel dwordsA p = unpack_v210_pixel dwordsB p) := by
  constructor
  · intro dwords k
    have hdiv : 2 * k / 6 = (2 * k + 1) / 6 := by omega
    have hm : 2 * k % 6 = 0 ∧ (2 * k + 1) % 6 = 1 ∨
        2 * k % 6 = 2 ∧ (2 * k + 1) % 6 = 3 ∨
        2 * k % 6 = 4 ∧ (2 * k + 1) % 6 = 5 := by omega
    rcases hm with ⟨h1, h2⟩ | ⟨h1, h2⟩ | ⟨h1, h2⟩ <;>
      simp [unpack_v210_pixel, h1, h2, hdiv]
  · intro dwordsA dwordsB p h
    have e0 : dwordsA (p / 6 * 4) = dwordsB (p / 6 * 4) := by
      simpa using h 0 (by omega)
    have e1 : dwordsA (p / 6 * 4 + 1) = dwordsB (p / 6 * 4 + 1) := h 1 (by omega)
    have e2 : dwordsA (p / 6 * 4 + 2) = dwordsB (p / 6 * 4 + 2) := h 2 (by omega)
    have e3 : dwordsA (p / 6 * 4 + 3) = dwordsB (p / 6 * 4 + 3) := h 3 (by omega)
    have hm : p % 6 = 0 ∨ p % 6 = 1 ∨ p % 6 = 2 ∨ p % 6 = 3 ∨ p % 6 = 4 ∨
        p % 6 = 5 := by omega
    rcases hm with h6 | h6 | h6 | h6 | h6 | h6 <;>
      simp [unpack_v210_pixel, h6, e0, e1, e2, e3]

/-- Claim C2 witness: the theorem applied to a concrete buffer (the identity
word stream) at pixel pair (2, 3) and, for the locality conjunct, to two
definitionally equal buffers at pixel 4. -/
theorem c2_v210_group_layout_witness :
    ((unpack_v210_pixel (fun i => i) 2).cb = (unpack_v210_pixel (fun i => i) 3).cb ∧
      (unpack_v210_pixel (fun i => i) 2).cr = (unpack_v210_pixel (fun i => i) 3).cr) ∧
    unpack_v210_pixel (fun i => i) 4 = unpack_v210_pixel (fun i => i + 0) 4 :=
  ⟨c2_v210_group_layout.1 (fun i => i) 1,
    c2_v210_group_layout.2 (fun i => i) (fun i => i + 0) 4 (fun _ _ => rfl)⟩

/-! ## Range mapper and color matrix (modelled from the spec, sections 4.1-4.2;
the numeric engine lives in the decklink_io C++ extension, outside the
inspected sources) -/

/-- Color matrix selector, named Gamut as in the Python bindings. -/
inductive Gamut where
  | Rec601
  | Rec709
  | Rec2020
deriving DecidableEq, Repr

/-- Modelled from the spec: red luma coefficient of each standard. -/
def Kr : Gamut → ℚ
  | .Rec601 => 299 / 1000
  | .Rec709 => 2126 / 10000
  | .Rec2020 => 2627 / 10000

/-- Modelled from the spec: blue luma coefficient of each standard. -/
def Kb : Gamut → ℚ
  | .Rec601 => 114 / 1000
  | .Rec709 => 722 / 10000
  | .Rec2020 => 593 / 10000

/-- Modelled from the spec: green luma coefficient, Kg = 1 - Kr - Kb. -/
def Kg (m : Gamut) : ℚ := 1 - Kr m - Kb m

/-- Modelled from the spec: forward RGB to YCbCr transform on normalized
full-range values.  Chroma is centered at one half. -/
def ycbcrOfRgb (m : Gamut) (r g b : ℚ) : ℚ × ℚ × ℚ :=
  let y := Kr m * r + Kg m * g + Kb m * b
  (y, 1 / 2 + (b - y) / (2 * (1 - Kb m)), 1 / 2 + (r - y) / (2 * (1 - Kr m)))

/-- Modelled from the spec: round-half-up rounding of a normalized value to an
integer code. -/
def roundHalfUp (q : ℚ) : ℤ := ⌊q + 1 / 2⌋

/-- Modelled from the spec: out-of-range inputs clamp to the representable code
range, never wrap. -/
def clampCode (lo hi v : ℤ) : ℤ := max lo (min hi v)

/-- Modelled from the spec: 10-bit luma quantizer, narrow range 64-940, full
range 0-1023. -/
def quantizeLuma10 (narrow : Bool) (v : ℚ) : ℤ :=
  if narrow then clampCode 0 1023 (roundHalfUp (64 + v * 876))
  else clampCode 0 1023 (roundHalfUp (v * 1023))

/-- Modelled from the spec: 10-bit chroma quantizer, narrow range 64-960 with
center 512, full range 0-1023. -/
def quantizeChroma10 (narrow : Bool) (c : ℚ) : ℤ :=
  if narrow then clampCode 0 1023 (roundHalfUp (64 + c * 896))
  else clampCode 0 1023 (roundHalfUp (c * 1023))

/-- Modelled from the spec: 8-bit luma quantizer, narrow range 16-235. -/
def quantizeLuma8 (narrow : Bool) (v : ℚ) : ℤ :=
  if narrow then clampCode 0 255 (roundHalfUp (16 + v * 219))
  else clampCode 0 255 (roundHalfUp (v * 255))

/-- Modelled from the spec: 10-bit RGB quantizer, narrow range 64-940. -/
def quantizeRgb10 (narrow : Bool) (v : ℚ) : ℤ :=
  if narrow then clampCode 0 1023 (roundHalfUp (64 + v * 876))
  else clampCode 0 1023 (roundHalfUp (v * 1023))

/-- Modelled from the spec: 12-bit RGB quantizer, narrow range 256-3760 (four
times the 10-bit narrow range). -/
def quantizeRgb12 (narrow : Bool) (v : ℚ) : ℤ :=
  if narrow then clampCode 0 4095 (roundHalfUp (256 + v * 3504))
  else clampCode 0 4095 (roundHalfUp (v * 4095))

/-- Modelled from the spec: one pixel of the float RGB to 10-bit YUV encode
path, matrix then quantization. -/
def encodeYuv10Pixel (m : Gamut) (outNarrow : Bool) (r g b : ℚ) : ℤ × ℤ × ℤ :=
  let c := ycbcrOfRgb m r g b
  (quantizeLuma10 outNarrow c.1, quantizeChroma10 outNarrow c.2.1,
    quantizeChroma10 outNarrow c.2.2)

/-- Helper: evaluating a clamped round-half-up quantization at a known code. -/
theorem clamp_roundHalfUp_eq (lo hi n : ℤ) (q : ℚ) (hlo : lo ≤ n) (hhi : n ≤ hi)
    (h1 : (n : ℚ) ≤ q + 1 / 2) (h2 : q + 1 / 2 < (n : ℚ) + 1) :
    clampCode lo hi (roundHalfUp q) = n := by
  have hf : roundHalfUp q = n := by
    rw [roundHalfUp, Int.floor_eq_iff]
    exact ⟨h1, h2⟩
  rw [hf, clampCode]
  omega

/-- Helper: equal-component RGB maps to luma equal to the component and both
chroma channels at the center, for every matrix. -/
theorem ycbcrOfRgb_gray (m : Gamut) (v : ℚ) :
    ycbcrOfRgb m v v v = (v, 1 / 2, 1 / 2) := by
  cases m <;> simp only [ycbcrOfRgb, Kr, Kg, Kb, Prod.mk.injEq] <;>
    refine ⟨by ring, by ring, by ring⟩

/-- Claim C3: boundary exactness of the range mapping.  For every matrix,
normalized white (1,1,1) encodes to exactly (940, 512, 512) in 10-bit narrow
YUV and black (0,0,0) to (64, 512, 512); full-range output gives Y 1023 for
white and 0 for black with chroma 512; the RGB quantizers send 1.0 and 0.0
exactly to the white and black codes of each convention (8-bit 16/235, 10-bit
64/940, 12-bit 256/3760, and the full ranges 0 to 2 to the n minus 1). -/
theorem c3_boundary_exactness (m : Gamut) :
    encodeYuv10Pixel m true 1 1 1 = (940, 512, 512) ∧
    encodeYuv10Pixel m true 0 0 0 = (64, 512, 512) ∧
    encodeYuv10Pixel m false 1 1 1 = (1023, 512, 512) ∧
    encodeYuv10Pixel m false 0 0 0 = (0, 512, 512) ∧
    quantizeRgb10 true 1 = 940 ∧ quantizeRgb10 true 0 = 64 ∧
    quantizeRgb10 false 1 = 1023 ∧ quantizeRgb10 false 0 = 0 ∧
    quantizeRgb12 true 1 = 3760 ∧ quantizeRgb12 true 0 = 256 ∧
    quantizeRgb12 false 1 = 4095 ∧ quantizeRgb12 false 0 = 0 ∧
    quantizeLuma8 true 1 = 235 ∧ quantizeLuma8 true 0 = 16 ∧
    quantizeLuma8 false 1 = 255 ∧ quantizeLuma8 false 0 = 0 := by
  have hL1 : quantizeLuma10 true 1 = 940 := by
    rw [quantizeLuma10, if_pos rfl]
    exact clamp_roundHalfUp_eq 0 1023 940 _ (by norm_num) (by norm_num)
      (by norm_num) (by norm_num)
  have hL0 : quantizeLuma10 true 0 = 64 := by
    rw [quantizeLuma10, if_pos rfl]
    exact clamp_roundHalfUp_eq 0 1023 64 _ (by norm_num) (by norm_num)
      (by norm_num) (by norm_num)
  have hF1 : quantizeLuma10 false 1 = 1023 := by
    rw [quantizeLuma10, if_neg (by simp)]
    exact clamp_roundHalfUp_eq 0 1023 1023 _ (by norm_num) (by norm_num)
      (by norm_num) (by norm_num)
  have hF0 : quantizeLuma10 false 0 = 0 := by
    rw [quantizeLuma10, if_neg (by simp)]
    exact clamp_roundHalfUp_eq 0 1023 0 _ (by norm_num) (by norm_num)
      (by norm_num) (by norm_num)
  have hCn : quantizeChroma10 true 2⁻¹ = 512 := by
    rw [quantizeChroma10, if_pos rfl]
    exact clamp_roundHalfUp_eq 0 1023 512 _ (by norm_num) (by norm_num)
      (by norm_num) (by norm_num)
  have hCf : quantizeChroma10 false 2⁻¹ = 512 := by
    rw [quantizeChroma10, if_neg (by simp)]
    exact clamp_roundHalfUp_eq 0 1023 512 _ (by norm_num) (by norm_num)
      (by norm_num) (by norm_num)
  refine ⟨?_, ?_, ?_, ?_, ?_, ?_, ?_, ?_, ?_, ?_, ?_, ?_, ?_, ?_, ?_, ?_⟩
  · rw [encodeYuv10Pixel, ycbcrOfRgb_gray]
    simp [hL1, hCn]
  · rw [encodeYuv10Pixel, ycbcrOfRgb_gray]
    simp [hL0, hCn]
  · rw [encodeYuv10Pixel, ycbcrOfRgb_gray]
    simp [hF1, hCf]
  · rw [encodeYuv10Pixel, ycbcrOfRgb_gray]
    simp [hF0, hCf]
  · rw [quantizeRgb10, if_pos rfl]
    exact clamp_roundHalfUp_eq 0 1023 940 _ (by norm_num) (by norm_num)
      (by norm_num) (by norm_num)
  · rw [quantizeRgb10, if_pos rfl]
    exact clamp_roundHalfUp_eq 0 1023 64 _ (by norm_num) (by norm_num)
      (by norm_num) (by norm_num)
  · rw [quantizeRgb10, if_neg (by simp)]
    exact clamp_roundHalfUp_eq 0 1023 1023 _ (by norm_num) (by norm_num)
      (by norm_num) (by norm_num)
  · rw [quantizeRgb10, if_neg (by simp)]
    exact clamp_roundHalfUp_eq 0 1023 0 _ (by norm_num) (by norm_num)
      (by norm_num) (by norm_num)
  · rw [quantizeRgb12, if_pos rfl]
    exact clamp_roundHalfUp_eq 0 4095 3760 _ (by norm_num) (by norm_num)
      (by norm_num) (by norm_num)
  · rw [quantizeRgb12, if_pos rfl]
    exact clamp_roundHalfUp_eq 0 4095 256 _ (by norm_num) (by norm_num)
      (by norm_num) (by norm_num)
  · rw [quantizeRgb12, if_neg (by simp)]
    exact clamp_roundHalfUp_eq 0 4095 4095 _ (by norm_num) (by norm_num)
      (by norm_num) (by norm_num)
  · rw [quantizeRgb12, if_neg (by simp)]
    exact clamp_roundHalfUp_eq 0 4095 0 _ (by norm_num) (by norm_num)
      (by norm_num) (by norm_num)
  · rw [quantizeLuma8, if_pos rfl]
    exact clamp_roundHalfUp_eq 0 255 235 _ (by norm_num) (by norm_num)
      (by norm_num) (by norm_num)
  · rw [quantizeLuma8, if_pos rfl]
    exact clamp_roundHalfUp_eq 0 255 16 _ (by norm_num) (by norm_num)
      (by norm_num) (by norm_num)
  · rw [quantizeLuma8, if_neg (by simp)]
    exact clamp_roundHalfUp_eq 0 255 255 _ (by norm_num) (by norm_num)
      (by norm_num) (by norm_num)
  · rw [quantizeLuma8, if_neg (by simp)]
    exact clamp_roundHalfUp_eq 0 255 0 _ (by norm_num) (by norm_num)
      (by norm_num) (by norm_num)

/-! ## Frame conversion facade (embedding of src/src/blackmagic_io/blackmagic_io.py) -/

/-- NumPy sample types appearing in the dispatch of the facade; int32 stands
for any dtype outside the supported set. -/
inductive Dtype where
  | uint8
  | uint16
  | float32
  | float64
  | int32
deriving DecidableEq, Repr

/-- A NumPy array as the facade sees it: a dtype, a shape, and the flat sample
data (rationals standing for the stored scalars). -/
structure NDArray where
  dtype : Dtype
  shape : List Nat
  data : List ℚ
deriving DecidableEq, Repr

/-- Default array value. -/
instance : Inhabited NDArray := ⟨⟨.uint8, [], []⟩⟩

/-- Number of dimensions of an array. -/
def NDArray.ndim (a : NDArray) : Nat := a.shape.length

/-- Entry of the shape tuple, zero when out of range. -/
def NDArray.shapeAt (a : NDArray) (i : Nat) : Nat := a.shape.getD i 0

/-- Embedding of numpy astype as used by the facade: the array is retagged with
the target dtype.  Sample values are carried unchanged because every consumer
of the retagged array in this development is an opaque converter. -/
def NDArray.astype (a : NDArray) (d : Dtype) : NDArray := { a with dtype := d }

/-- Pixel formats of the facade (blackmagic_io.py, class PixelFormat). -/
inductive PixelFormat where
  | BGRA
  | YUV8
  | YUV10
  | RGB10
  | RGB12
deriving DecidableEq, Repr

/-- Display modes of the facade (blackmagic_io.py, class DisplayMode). -/
inductive DisplayMode where
  | NTSC
  | NTSC2398
  | PAL
  | NTSCp
  | PALp
  | HD1080p2398
  | HD1080p24
  | HD1080p25
  | HD1080p2997
  | HD1080p30
  | HD1080p4795
  | HD1080p48
  | HD1080p50
  | HD1080p5994
  | HD1080p60
  | HD1080p9590
  | HD1080p96
  | HD1080p100
  | HD1080p11988
  | HD1080p120
  | HD1080i50
  | HD1080i5994
  | HD1080i60
  | HD720p50
  | HD720p5994
  | HD720p60
  | Mode2k2398
  | Mode2k24
  | Mode2k25
  | Mode2kDCI2398
  | Mode2kDCI24
  | Mode2kDCI25
  | Mode2kDCI2997
  | Mode2kDCI30
  | Mode2kDCI4795
  | Mode2kDCI48
  | Mode2kDCI50
  | Mode2kDCI5994
  | Mode2kDCI60
  | Mode2kDCI9590
  | Mode2kDCI96
  | Mode2kDCI100
  | Mode2kDCI11988
  | Mode2kDCI120
  | Mode4K2160p2398
  | Mode4K2160p24
  | Mode4K2160p25
  | Mode4K2160p2997
  | Mode4K2160p30
  | Mode4K2160p4795
  | Mode4K2160p48
  | Mode4K2160p50
  | Mode4K2160p5994
  | Mode4K2160p60
  | Mode4K2160p9590
  | Mode4K2160p96
  | Mode4K2160p100
  | Mode4K2160p11988
  | Mode4K2160p120
  | Mode4kDCI2398
  | Mode4kDCI24
  | Mode4kDCI25
  | Mode4kDCI2997
  | Mode4kDCI30
  | Mode4kDCI4795
  | Mode4kDCI48
  | Mode4kDCI50
  | Mode4kDCI5994
  | Mode4kDCI60
  | Mode4kDCI9590
  | Mode4kDCI96
  | Mode4kDCI100
  | Mode4kDCI11988
  | Mode4kDCI120
  | Mode8K4320p2398
  | Mode8K4320p24
  | Mode8K4320p25
  | Mode8K4320p2997
  | Mode8K4320p30
  | Mode8K4320p4795
  | Mode8K4320p48
  | Mode8K4320p50
  | Mode8K4320p5994
  | Mode8K4320p60
  | Mode8kDCI2398
  | Mode8kDCI24
  | Mode8kDCI25
  | Mode8kDCI2997
  | Mode8kDCI30
  | Mode8kDCI4795
  | Mode8kDCI48
  | Mode8kDCI50
  | Mode8kDCI5994
  | Mode8kDCI60
  | Mode640x480p60
  | Mode800x600p60
  | Mode1440x900p50
  | Mode1440x900p60
  | Mode1440x1080p50
  | Mode1440x1080p60
  | Mode1600x1200p50
  | Mode1600x1200p60
  | Mode1920x1200p50
  | Mode1920x1200p60
  | Mode1920x1440p50
  | Mode1920x1440p60
  | Mode2560x1440p50
  | Mode2560x1440p60
  | Mode2560x1600p50
  | Mode2560x1600p60
deriving DecidableEq, Repr

/-- Video settings object returned by get_video_settings and stored in
_current_settings: a mode, a pixel format, and the frame geometry. -/
structure Settings where
  mode : DisplayMode
  format : PixelFormat
  width : Nat
  height : Nat
deriving DecidableEq, Repr

/-- Electro-optical transfer function selector. -/
inductive Eotf where
  | SDR
  | PQ
  | HLG
deriving DecidableEq, Repr

/-- Python exceptions raised by the facade: each value carries the exception
type (its constructor) and the message. -/
inductive PyErr where
  | typeError (msg : String)
  | valueError (msg : String)
deriving DecidableEq, Repr

/-- The Python exception type of a raised error, with the message forgotten. -/
def PyErr.kind : PyErr → Nat
  | .typeError _ => 0
  | .valueError _ => 1

/-- The pixel conversion functions of the decklink_io C++ extension, treated as
opaque pure functions (immutable constants per the concurrency model). -/
structure Converters where
  rgb_to_bgra : NDArray → Nat → Nat → NDArray
  rgb_uint8_to_yuv8 : NDArray → Nat → Nat → Gamut → Bool → Bool → NDArray
  rgb_uint16_to_yuv8 : NDArray → Nat → Nat → Gamut → Bool → Bool → NDArray
  rgb_float_to_yuv8 : NDArray → Nat → Nat → Gamut → Bool → NDArray
  rgb_uint16_to_yuv10 : NDArray → Nat → Nat → Gamut → Bool → Bool → NDArray
  rgb_float_to_yuv10 : NDArray → Nat → Nat → Gamut → Bool → NDArray
  rgb_uint16_to_rgb10 : NDArray → Nat → Nat → Bool → Bool → NDArray
  rgb_float_to_rgb10 : NDArray → Nat → Nat → Bool → NDArray
  rgb_uint16_to_rgb12 : NDArray → Nat → Nat → Bool → Bool → NDArray
  rgb_float_to_rgb12 : NDArray → Nat → Nat → Bool → NDArray

/-- Embedding of BlackmagicOutput._prepare_frame_data (blackmagic_io.py lines
515-611).  The Python method reads the object only through
self._current_settings, passed here explicitly; every raise becomes an
Except.error carrying the exception type and message, returned at the raise
site with no retry. -/
def prepareFrameData (conv : Converters) (settings : Settings) (frame : NDArray)
    (pixel_format : PixelFormat) (matrix : Gamut)
    (input_narrow_range output_narrow_range : Bool) : Except PyErr NDArray :=
  match pixel_format with
  | .BGRA =>
    let fd := if frame.dtype ≠ Dtype.uint8 then frame.astype .uint8 else frame
    if fd.ndim = 3 ∧ fd.shapeAt 2 = 3 then
      .ok (conv.rgb_to_bgra fd settings.width settings.height)
    else if fd.ndim = 3 ∧ fd.shapeAt 2 = 4 then
      .ok fd
    else
      .error (.valueError ("For BGRA format, frame data must be HxWx3 (RGB) or HxWx4 (BGRA)"))
  | .YUV8 =>
    if ¬ (frame.ndim = 3 ∧ frame.shapeAt 2 = 3) then
      .error (.valueError ("For YUV8 format, frame data must be HxWx3 (RGB)"))
    else
      match frame.dtype with
      | .uint8 => .ok (conv.rgb_uint8_to_yuv8 frame settings.width settings.height
          matrix input_narrow_range output_narrow_range)
      | .uint16 => .ok (conv.rgb_uint16_to_yuv8 frame settings.width settings.height
          matrix input_narrow_range output_narrow_range)
      | .float32 => .ok (conv.rgb_float_to_yuv8 (frame.astype .float32)
          settings.width settings.height matrix output_narrow_range)
      | .float64 => .ok (conv.rgb_float_to_yuv8 (frame.astype .float32)
          settings.width settings.height matrix output_narrow_range)
      | _ => .error (.valueError ("For YUV8 format, frame data must be uint8, uint16 or float dtype"))
  | .YUV10 =>
    if ¬ (frame.ndim = 3 ∧ frame.shapeAt 2 = 3) then
      .error (.valueError ("For YUV10 format, frame data must be HxWx3 (RGB)"))
    else
      match frame.dtype with
      | .uint16 => .ok (conv.rgb_uint16_to_yuv10 frame settings.width settings.height
          matrix input_narrow_range output_narrow_range)
      | .float32 => .ok (conv.rgb_float_to_yuv10 (frame.astype .float32)
          settings.width settings.height matrix output_narrow_range)
      | .float64 => .ok (conv.rgb_float_to_yuv10 (frame.astype .float32)
          settings.width settings.height matrix output_narrow_range)
      | _ => .error (.valueError ("For YUV10 format, frame data must be uint16 or float dtype"))
  | .RGB10 =>
    if ¬ (frame.ndim = 3 ∧ frame.shapeAt 2 = 3) then
      .error (.valueError ("For RGB10 format, frame data must be HxWx3 (RGB)"))
    else
      match frame.dtype with
      | .uint16 => .ok (conv.rgb_uint16_to_rgb10 frame settings.width settings.height
          input_narrow_range output_narrow_range)
      | .float32 => .ok (conv.rgb_float_to_rgb10 (frame.astype .float32)
          settings.width settings.height output_narrow_range)
      | .float64 => .ok (conv.rgb_float_to_rgb10 (frame.astype .float32)
          settings.width settings.height output_narrow_range)
      | _ => .error (.valueError ("For RGB10 format, frame data must be uint16 or float dtype"))
  | .RGB12 =>
    if ¬ (frame.ndim = 3 ∧ frame.shapeAt 2 = 3) then
      .error (.valueError ("For RGB12 format, frame data must be HxWx3 (RGB)"))
    else
      match frame.dtype with
      | .uint16 => .ok (conv.rgb_uint16_to_rgb12 frame settings.width settings.height
          input_narrow_range output_narrow_range)
      | .float32 => .ok (conv.rgb_float_to_rgb12 (frame.astype .float32)
          settings.width settings.height output_narrow_range)
      | .float64 => .ok (conv.rgb_float_to_rgb12 (frame.astype .float32)
          settings.width settings.height output_narrow_range)
      | _ => .error (.valueError ("For RGB12 format, frame data must be uint16 or float dtype"))

/-- Mutable state of a BlackmagicOutput object between calls (its __init__
fields, without the device handle). -/
structure OutState where
  initialized : Bool
  output_started : Bool
  current_settings : Option Settings
  current_matrix : Gamut
  current_input_narrow_range : Bool
  current_output_narrow_range : Bool
deriving DecidableEq, Repr

/-- Fixed behavior of the DeckLink device as seen by display_static_frame:
get_video_settings, the success of setup_output, initialize, set_frame_data
and display_frame.  The device is one fixed collaborator across runs. -/
structure Device where
  gvs : DisplayMode → Settings
  setup_ok : Settings → Bool
  init_ok : Bool
  set_frame_ok : NDArray → Bool
  display_ok : Bool

/-- Embedding of the pixel format substitution in display_static_frame (lines
308-309): a YUV10 request with uint8 data becomes BGRA, every other
combination is kept. -/
def effectivePixelFormat (pixel_format : PixelFormat) (dt : Dtype) : PixelFormat :=
  if pixel_format = PixelFormat.YUV10 ∧ dt = Dtype.uint8 then PixelFormat.BGRA
  else pixel_format

/-- The SD mode set of display_static_frame (lines 312-313). -/
def SD_MODES : List DisplayMode :=
  [.NTSC, .NTSC2398, .PAL, .NTSCp, .PALp]

/-- Embedding of the default matrix selection in display_static_frame (lines
311-317): an explicit matrix wins; otherwise SD geometries get Rec601 and all
other modes Rec709. -/
def chooseMatrix (matrix : Option Gamut) (display_mode : DisplayMode) : Gamut :=
  match matrix with
  | some m => m
  | none => if display_mode ∈ SD_MODES then .Rec601 else .Rec709

/-- The hdr_metadata argument dict of display_static_frame: an optional eotf
entry and an optional custom block. -/
structure HdrArg where
  eotf : Option Eotf
  custom : Option Unit
deriving DecidableEq, Repr

/-- Observable outcome of one display_static_frame call: the frame handed to
set_frame_data if that point was reached, the final object state, and the
returned Boolean (none when an exception escaped). -/
structure RunOut where
  prepared : Option NDArray
  state : OutState
  retval : Option Bool
deriving Repr

/-- Tail of display_static_frame from the prepared-frame computation on (lines
351-360): convert, hand to the device, start output. -/
def displayFrameFinish (dev : Device) (conv : Converters) (s : OutState)
    (cs : Settings) (frame : NDArray) (pf : PixelFormat) (m : Gamut)
    (inNR outNR : Bool) : RunOut :=
  match prepareFrameData conv cs frame pf m inNR outNR with
  | .error _ => ⟨none, s, none⟩
  | .ok buf =>
    if dev.set_frame_ok buf then
      if dev.display_ok then ⟨some buf, { s with output_started := true }, some true⟩
      else ⟨some buf, s, some false⟩
    else ⟨some buf, s, some false⟩

/-- The setup_output branch of display_static_frame (lines 344-349): fetch
fresh settings for the mode, override the format, set up the device. -/
def displaySetupAndFinish (dev : Device) (conv : Converters) (s : OutState)
    (frame : NDArray) (dm : DisplayMode) (pf : PixelFormat) (m : Gamut)
    (inNR outNR : Bool) : RunOut :=
  let st := { dev.gvs dm with format := pf }
  if dev.setup_ok st then
    displayFrameFinish dev conv { s with current_settings := some st } st frame pf m inNR outNR
  else ⟨none, s, some false⟩

/-- The settings guard of display_static_frame (lines 340-343): reuse the
current settings only when mode and format match and output is running. -/
def displayAfterHdr (dev : Device) (conv : Converters) (s : OutState)
    (frame : NDArray) (dm : DisplayMode) (pf : PixelFormat) (m : Gamut)
    (inNR outNR : Bool) : RunOut :=
  match s.current_settings with
  | some cs =>
    if cs.mode = dm ∧ cs.format = pf ∧ s.output_started then
      displayFrameFinish dev conv s cs frame pf m inNR outNR
    else displaySetupAndFinish dev conv s frame dm pf m inNR outNR
  | none => displaySetupAndFinish dev conv s frame dm pf m inNR outNR

/-- Embedding of BlackmagicOutput.display_static_frame (lines 262-360).
Device calls that only push HDR metadata do not touch the Python object state
and cannot influence the prepared frame, so they are not tracked; the raise
for a missing eotf key is. -/
def displayStaticFrame (dev : Device) (conv : Converters) (s0 : OutState)
    (frame : NDArray) (dm : DisplayMode) (pf0 : PixelFormat)
    (matrix : Option Gamut) (hdr : Option HdrArg)
    (inNR outNR : Bool) : RunOut :=
  if ¬ s0.initialized ∧ ¬ dev.init_ok then ⟨none, s0, some false⟩
  else
    let s1 := if s0.initialized then s0 else { s0 with initialized := true }
    let pf := effectivePixelFormat pf0 frame.dtype
    let m := chooseMatrix matrix dm
    let s2 := { s1 with
      current_matrix := m
      current_input_narrow_range := inNR
      current_output_narrow_range := outNR }
    match hdr with
    | some h =>
      match h.eotf with
      | none => ⟨none, s2, none⟩
      | some _ => displayAfterHdr dev conv s2 frame dm pf m inNR outNR
    | none => displayAfterHdr dev conv s2 frame dm pf m inNR outNR

/-- A concrete converter bundle for witnesses: every conversion returns its
input array. -/
def trivialConverters : Converters where
  rgb_to_bgra := fun a _ _ => a
  rgb_uint8_to_yuv8 := fun a _ _ _ _ _ => a
  rgb_uint16_to_yuv8 := fun a _ _ _ _ _ => a
  rgb_float_to_yuv8 := fun a _ _ _ _ => a
  rgb_uint16_to_yuv10 := fun a _ _ _ _ _ => a
  rgb_float_to_yuv10 := fun a _ _ _ _ => a
  rgb_uint16_to_rgb10 := fun a _ _ _ _ => a
  rgb_float_to_rgb10 := fun a _ _ _ => a
  rgb_uint16_to_rgb12 := fun a _ _ _ _ => a
  rgb_float_to_rgb12 := fun a _ _ _ => a

/-- A concrete settings value for witnesses. -/
def sampleSettings : Settings := ⟨.HD1080p25, .YUV10, 2, 2⟩

/-- Claim C5 counterexample: the facade does not behave as the claim states,
in two ways.  First, at an unsupported dtype (int32) and at a non-HxWx3 shape,
prepare_frame_data raises in both cases the single Python exception type
ValueError, distinguished only by the message, so no typed
UnsupportedSampleType or InvalidShape error exists in the code.  Second, the
dtype rule is not universal over formats: under the BGRA format the very same
int32 frame that YUV10 rejects is silently coerced with astype to uint8 and
converted successfully instead of raising. -/
theorem c5_typed_errors_counterexample :
    prepareFrameData trivialConverters sampleSettings ⟨.int32, [2, 2, 3], []⟩
        .YUV10 .Rec709 false true
      = .error (.valueError ("For YUV10 format, frame data must be uint16 or float dtype")) ∧
    prepareFrameData trivialConverters sampleSettings ⟨.uint16, [2, 2], []⟩
        .YUV10 .Rec709 false true
      = .error (.valueError ("For YUV10 format, frame data must be HxWx3 (RGB)")) ∧
    PyErr.kind (.valueError ("For YUV10 format, frame data must be uint16 or float dtype"))
      = PyErr.kind (.valueError ("For YUV10 format, frame data must be HxWx3 (RGB)")) ∧
    prepareFrameData trivialConverters sampleSettings ⟨.int32, [2, 2, 3], []⟩
        .BGRA .Rec709 false true
      = .ok (NDArray.astype ⟨.int32, [2, 2, 3], []⟩ .uint8) := by
  refine ⟨?_, ?_, rfl, ?_⟩ <;> rfl

/-- Claim C5 (amended): for the YUV and packed RGB wire formats (YUV8, YUV10,
RGB10, RGB12), an unsupported sample type raises ValueError with the
format-specific dtype message and a shape that is not HxWx3 raises ValueError
with the format-specific shape message; both are surfaced immediately at the
call site as the result of the call with no retry, but both share the single
Python exception type ValueError rather than being distinct typed
UnsupportedSampleType and InvalidShape errors.  For the BGRA format no sample
type is rejected at all: any non-uint8 dtype is silently coerced with astype
to uint8 and converted, HxWx4 frames are accepted unchanged, and only a shape
that is neither HxWx3 nor HxWx4 raises, again a plain ValueError. -/
theorem c5_error_handling (conv : Converters) (st : Settings) (frame : NDArray)
    (m : Gamut) (inNR outNR : Bool) :
    (frame.ndim = 3 ∧ frame.shapeAt 2 = 3 →
      frame.dtype = Dtype.uint8 ∨ frame.dtype = Dtype.int32 →
      prepareFrameData conv st frame .YUV10 m inNR outNR
        = .error (.valueError ("For YUV10 format, frame data must be uint16 or float dtype"))) ∧
    (¬ (frame.ndim = 3 ∧ frame.shapeAt 2 = 3) →
      prepareFrameData conv st frame .YUV10 m inNR outNR
        = .error (.valueError ("For YUV10 format, frame data must be HxWx3 (RGB)"))) ∧
    (frame.ndim = 3 ∧ frame.shapeAt 2 = 3 →
      frame.dtype = Dtype.uint8 ∨ frame.dtype = Dtype.int32 →
      prepareFrameData conv st frame .RGB10 m inNR outNR
        = .error (.valueError ("For RGB10 format, frame data must be uint16 or float dtype"))) ∧
    (¬ (frame.ndim = 3 ∧ frame.shapeAt 2 = 3) →
      prepareFrameData conv st frame .RGB10 m inNR outNR
        = .error (.valueError ("For RGB10 format, frame data must be HxWx3 (RGB)"))) ∧
    (frame.ndim = 3 ∧ frame.shapeAt 2 = 3 →
      frame.dtype = Dtype.uint8 ∨ frame.dtype = Dtype.int32 →
      prepareFrameData conv st frame .RGB12 m inNR outNR
        = .error (.valueError ("For RGB12 format, frame data must be uint16 or float dtype"))) ∧
    (¬ (frame.ndim = 3 ∧ frame.shapeAt 2 = 3) →
      prepareFrameData conv st frame .RGB12 m inNR outNR
        = .error (.valueError ("For RGB12 format, frame data must be HxWx3 (RGB)"))) ∧
    (frame.ndim = 3 ∧ frame.shapeAt 2 = 3 →
      frame.dtype = Dtype.int32 →
      prepareFrameData conv st frame .YUV8 m inNR outNR
        = .error (.valueError ("For YUV8 format, frame data must be uint8, uint16 or float dtype"))) ∧
    (¬ (frame.ndim = 3 ∧ frame.shapeAt 2 = 3) →
      prepareFrameData conv st frame .YUV8 m inNR outNR
        = .error (.valueError ("For YUV8 format, frame data must be HxWx3 (RGB)"))) ∧
    (frame.ndim = 3 ∧ frame.shapeAt 2 = 3 →
      prepareFrameData conv st frame .BGRA m inNR outNR
        = .ok (conv.rgb_to_bgra
            (if frame.dtype ≠ Dtype.uint8 then frame.astype .uint8 else frame)
            st.width st.height)) ∧
    (frame.ndim = 3 ∧ frame.shapeAt 2 = 4 →
      prepareFrameData conv st frame .BGRA m inNR outNR
        = .ok (if frame.dtype ≠ Dtype.uint8 then frame.astype .uint8 else frame)) ∧
    (¬ (frame.ndim = 3 ∧ (frame.shapeAt 2 = 3 ∨ frame.shapeAt 2 = 4)) →
      prepareFrameData conv st frame .BGRA m inNR outNR
        = .error (.valueError ("For BGRA format, frame data must be HxWx3 (RGB) or HxWx4 (BGRA)"))) := by
  refine ⟨?_, ?_, ?_, ?_, ?_, ?_, ?_, ?_, ?_, ?_, ?_⟩ <;> intro hsh
  · intro hdt
    rcases hdt with hd | hd <;> simp [prepareFrameData, hsh, hd]
  · simp [prepareFrameData, hsh]
  · intro hdt
    rcases hdt with hd | hd <;> simp [prepareFrameData, hsh, hd]
  · simp [prepareFrameData, hsh]
  · intro hdt
    rcases hdt with hd | hd <;> simp [prepareFrameData, hsh, hd]
  · simp [prepareFrameData, hsh]
  · intro hd
    simp [prepareFrameData, hsh, hd]
  · simp [prepareFrameData, hsh]
  · simp only [prepareFrameData]
    generalize hfd : (if frame.dtype ≠ Dtype.uint8 then frame.astype .uint8
      else frame) = fd
    have hnd : fd.ndim = frame.ndim := by rw [← hfd]; split <;> rfl
    have hsa : fd.shapeAt 2 = frame.shapeAt 2 := by rw [← hfd]; split <;> rfl
    rw [if_pos (show fd.ndim = 3 ∧ fd.shapeAt 2 = 3 by rw [hnd, hsa]; exact hsh)]
  · simp only [prepareFrameData]
    generalize hfd : (if frame.dtype ≠ Dtype.uint8 then frame.astype .uint8
      else frame) = fd
    have hnd : fd.ndim = frame.ndim := by rw [← hfd]; split <;> rfl
    have hsa : fd.shapeAt 2 = frame.shapeAt 2 := by rw [← hfd]; split <;> rfl
    rw [if_neg (show ¬ (fd.ndim = 3 ∧ fd.shapeAt 2 = 3) by
        rw [hnd, hsa]; rintro ⟨h1, h2⟩; rw [h2] at hsh; exact absurd hsh.2 (by decide)),
      if_pos (show fd.ndim = 3 ∧ fd.shapeAt 2 = 4 by rw [hnd, hsa]; exact hsh)]
  · have h3 : ¬ (frame.ndim = 3 ∧ frame.shapeAt 2 = 3) :=
      fun h => hsh ⟨h.1, Or.inl h.2⟩
    have h4 : ¬ (frame.ndim = 3 ∧ frame.shapeAt 2 = 4) :=
      fun h => hsh ⟨h.1, Or.inr h.2⟩
    simp only [prepareFrameData]
    generalize hfd : (if frame.dtype ≠ Dtype.uint8 then frame.astype .uint8
      else frame) = fd
    have hnd : fd.ndim = frame.ndim := by rw [← hfd]; split <;> rfl
    have hsa : fd.shapeAt 2 = frame.shapeAt 2 := by rw [← hfd]; split <;> rfl
    rw [if_neg (show ¬ (fd.ndim = 3 ∧ fd.shapeAt 2 = 3) by rw [hnd, hsa]; exact h3),
      if_neg (show ¬ (fd.ndim = 3 ∧ fd.shapeAt 2 = 4) by rw [hnd, hsa]; exact h4)]

/-- Claim C5 witness: the amended theorem applied to the concrete unsupported
dtype frame (rejected under YUV10, silently coerced to success under BGRA) and
the concrete two-dimensional frame of the counterexample. -/
theorem c5_error_handling_witness :
    prepareFrameData trivialConverters sampleSettings ⟨.int32, [2, 2, 3], []⟩
        .YUV10 .Rec709 false true
      = .error (.valueError ("For YUV10 format, frame data must be uint16 or float dtype")) ∧
    prepareFrameData trivialConverters sampleSettings ⟨.uint16, [2, 2], []⟩
        .YUV10 .Rec709 false true
      = .error (.valueError ("For YUV10 format, frame data must be HxWx3 (RGB)")) ∧
    prepareFrameData trivialConverters sampleSettings ⟨.int32, [2, 2, 3], []⟩
        .BGRA .Rec709 false true
      = .ok (trivialConverters.rgb_to_bgra
          (if (⟨.int32, [2, 2, 3], []⟩ : NDArray).dtype ≠ Dtype.uint8 then
            NDArray.astype ⟨.int32, [2, 2, 3], []⟩ .uint8
          else ⟨.int32, [2, 2, 3], []⟩)
          sampleSettings.width sampleSettings.height) :=
  ⟨(c5_error_handling trivialConverters sampleSettings ⟨.int32, [2, 2, 3], []⟩
      .Rec709 false true).1 (by constructor <;> rfl) (Or.inr rfl),
    (c5_error_handling trivialConverters sampleSettings ⟨.uint16, [2, 2], []⟩
      .Rec709 false true).2.1 (by intro h; exact absurd h.1 (by decide)),
    (c5_error_handling trivialConverters sampleSettings ⟨.int32, [2, 2, 3], []⟩
      .Rec709 false true).2.2.2.2.2.2.2.2.1 (by constructor <;> rfl)⟩

/-- Helper: when the finishing stage reports success, the configured settings
are unchanged and still carry the format it was given. -/
theorem displayFrameFinish_format (dev : Device) (conv : Converters)
    (s3 : OutState) (cs : Settings) (frame : NDArray) (pf : PixelFormat)
    (m : Gamut) (inNR outNR : Bool)
    (hcs : s3.current_settings = some cs) (hfmt : cs.format = pf) :
    (displayFrameFinish dev conv s3 cs frame pf m inNR outNR).retval = some true →
    ∃ cs2, (displayFrameFinish dev conv s3 cs frame pf m inNR outNR).state.current_settings
      = some cs2 ∧ cs2.format = pf := by
  rw [displayFrameFinish]
  split
  · intro hr
    simp at hr
  · split
    · split
      · intro _
        exact ⟨cs, by simpa using hcs, hfmt⟩
      · intro hr
        simp at hr
    · intro hr
      simp at hr

/-- Helper: when the setup branch reports success, the configured settings
carry the format it was given. -/
theorem displaySetupAndFinish_format (dev : Device) (conv : Converters)
    (s : OutState) (frame : NDArray) (dm : DisplayMode) (pf : PixelFormat)
    (m : Gamut) (inNR outNR : Bool) :
    (displaySetupAndFinish dev conv s frame dm pf m inNR outNR).retval = some true →
    ∃ cs2, (displaySetupAndFinish dev conv s frame dm pf m inNR outNR).state.current_settings
      = some cs2 ∧ cs2.format = pf := by
  simp only [displaySetupAndFinish]
  split
  · exact displayFrameFinish_format dev conv _ _ frame pf m inNR outNR rfl rfl
  · intro hr
    simp at hr

/-- Helper: when the stage after the HDR block reports success, the configured
settings carry the format it was given. -/
theorem displayAfterHdr_format (dev : Device) (conv : Converters)
    (s : OutState) (frame : NDArray) (dm : DisplayMode) (pf : PixelFormat)
    (m : Gamut) (inNR outNR : Bool) :
    (displayAfterHdr dev conv s frame dm pf m inNR outNR).retval = some true →
    ∃ cs2, (displayAfterHdr dev conv s frame dm pf m inNR outNR).state.current_settings
      = some cs2 ∧ cs2.format = pf := by
  rw [displayAfterHdr]
  split
  · rename_i cs hcs
    split
    · rename_i hguard
      exact displayFrameFinish_format dev conv s cs frame pf m inNR outNR hcs
        hguard.2.1
    · exact displaySetupAndFinish_format dev conv s frame dm pf m inNR outNR
  · exact displaySetupAndFinish_format dev conv s frame dm pf m inNR outNR

/-- Claim C6: display_static_frame substitutes BGRA for a YUV10 request with
uint8 frame data and keeps every other format and dtype combination unchanged;
a run that returns true has configured the output with exactly that effective
pixel format. -/
theorem c6_bgra_substitution :
    effectivePixelFormat .YUV10 .uint8 = .BGRA ∧
    (∀ (pf : PixelFormat) (dt : Dtype), ¬ (pf = .YUV10 ∧ dt = .uint8) →
      effectivePixelFormat pf dt = pf) ∧
    (∀ dev conv s0 frame dm pf0 matrix hdr inNR outNR,
      (displayStaticFrame dev conv s0 frame dm pf0 matrix hdr inNR outNR).retval = some true →
      ∃ cs, (displayStaticFrame dev conv s0 frame dm pf0 matrix hdr inNR outNR).state.current_settings
          = some cs ∧ cs.format = effectivePixelFormat pf0 frame.dtype) := by
  refine ⟨rfl, ?_, ?_⟩
  · intro pf dt h
    rw [effectivePixelFormat, if_neg h]
  · intro dev conv s0 frame dm pf0 matrix hdr inNR outNR
    rcases hdr with _ | ⟨_ | e, c⟩ <;> simp only [displayStaticFrame] <;> split <;>
      first
        | (intro hr; simp at hr)
        | exact displayAfterHdr_format dev conv _ frame dm _ _ inNR outNR

/-- Claim C6 witness: a run requesting YUV10 with a uint8 frame on a fully
cooperative device returns true and leaves BGRA as the configured format. -/
theorem c6_bgra_substitution_witness :
    effectivePixelFormat .RGB12 .uint16 = .RGB12 ∧
    ∃ cs, (displayStaticFrame
        ⟨fun _ => sampleSettings, fun _ => true, true, fun _ => true, true⟩
        trivialConverters
        ⟨false, false, none, .Rec709, false, true⟩
        ⟨.uint8, [2, 2, 3], []⟩ .HD1080p25 .YUV10 none none false true).state.current_settings
      = some cs ∧ cs.format = effectivePixelFormat .YUV10 (Dtype.uint8) :=
  ⟨c6_bgra_substitution.2.1 .RGB12 .uint16 (by intro h; exact absurd h.1 (by decide)),
    c6_bgra_substitution.2.2
      ⟨fun _ => sampleSettings, fun _ => true, true, fun _ => true, true⟩
      trivialConverters
      ⟨false, false, none, .Rec709, false, true⟩
      ⟨.uint8, [2, 2, 3], []⟩ .HD1080p25 .YUV10 none none false true rfl⟩

/-- Reachability invariant of the facade state: stored settings always
originate from get_video_settings with only the format overwritten, so their
geometry is the device geometry of their mode. -/
def SettingsInv (dev : Device) (s : OutState) : Prop :=
  ∀ cs, s.current_settings = some cs →
    cs.width = (dev.gvs cs.mode).width ∧ cs.height = (dev.gvs cs.mode).height

/-- Helper: prepare_frame_data reads its settings argument only through width
and height. -/
theorem prepareFrameData_congr_wh (conv : Converters) (s1 s2 : Settings)
    (frame : NDArray) (pf : PixelFormat) (m : Gamut) (inNR outNR : Bool)
    (hw : s1.width = s2.width) (hh : s1.height = s2.height) :
    prepareFrameData conv s1 frame pf m inNR outNR
      = prepareFrameData conv s2 frame pf m inNR outNR := by
  cases pf <;> simp only [prepareFrameData] <;> rw [hw, hh]

/-- Helper: a prepared frame surviving to the finishing stage is exactly the
output of prepare_frame_data on the settings in effect. -/
theorem displayFrameFinish_prepared (dev : Device) (conv : Converters)
    (s3 : OutState) (cs : Settings) (frame : NDArray) (pf : PixelFormat)
    (m : Gamut) (inNR outNR : Bool) (buf : NDArray) :
    (displayFrameFinish dev conv s3 cs frame pf m inNR outNR).prepared = some buf →
    prepareFrameData conv cs frame pf m inNR outNR = .ok buf := by
  rw [displayFrameFinish]
  split
  · intro hr
    simp at hr
  · rename_i buf0 hp
    intro hr
    by_cases h1 : dev.set_frame_ok buf0 = true <;> by_cases h2 : dev.display_ok = true <;>
      simp [h1, h2] at hr <;> rw [hp, hr]

/-- Helper: a prepared frame produced through the setup branch is the output of
prepare_frame_data on the fresh settings of the requested mode and format. -/
theorem displaySetupAndFinish_prepared (dev : Device) (conv : Converters)
    (s : OutState) (frame : NDArray) (dm : DisplayMode) (pf : PixelFormat)
    (m : Gamut) (inNR outNR : Bool) (buf : NDArray) :
    (displaySetupAndFinish dev conv s frame dm pf m inNR outNR).prepared = some buf →
    prepareFrameData conv { dev.gvs dm with format := pf } frame pf m inNR outNR
      = .ok buf := by
  simp only [displaySetupAndFinish]
  split
  · exact displayFrameFinish_prepared dev conv _ _ frame pf m inNR outNR buf
  · intro hr
    simp at hr

/-- Helper: under the settings invariant, a prepared frame produced after the
HDR block is the output of prepare_frame_data on the geometry of the requested
mode, whichever guard branch ran. -/
theorem displayAfterHdr_prepared (dev : Device) (conv : Converters)
    (s : OutState) (frame : NDArray) (dm : DisplayMode) (pf : PixelFormat)
    (m : Gamut) (inNR outNR : Bool) (buf : NDArray)
    (hInv : SettingsInv dev s) :
    (displayAfterHdr dev conv s frame dm pf m inNR outNR).prepared = some buf →
    prepareFrameData conv { dev.gvs dm with format := pf } frame pf m inNR outNR
      = .ok buf := by
  rw [displayAfterHdr]
  split
  · rename_i cs hcs
    split
    · rename_i hg
      intro hr
      have hp := displayFrameFinish_prepared dev conv s cs frame pf m inNR outNR buf hr
      have hwh := hInv cs hcs
      rw [← hp]
      apply prepareFrameData_congr_wh
      · show (dev.gvs dm).width = cs.width
        rw [hwh.1, hg.1]
      · show (dev.gvs dm).height = cs.height
        rw [hwh.2, hg.1]
    · exact displaySetupAndFinish_prepared dev conv s frame dm pf m inNR outNR buf
  · exact displaySetupAndFinish_prepared dev conv s frame dm pf m inNR outNR buf

/-- Helper: under the settings invariant, the frame a display_static_frame call
hands to the device is a function of that call arguments alone: it is the
prepare_frame_data output on the device geometry of the requested mode, the
effective pixel format and the chosen matrix. -/
theorem displayStaticFrame_prepared (dev : Device) (conv : Converters)
    (s0 : OutState) (frame : NDArray) (dm : DisplayMode) (pf0 : PixelFormat)
    (matrix : Option Gamut) (hdr : Option HdrArg) (inNR outNR : Bool)
    (buf : NDArray) (hInv : SettingsInv dev s0) :
    (displayStaticFrame dev conv s0 frame dm pf0 matrix hdr inNR outNR).prepared
      = some buf →
    prepareFrameData conv
        { dev.gvs dm with format := effectivePixelFormat pf0 frame.dtype }
        frame (effectivePixelFormat pf0 frame.dtype) (chooseMatrix matrix dm)
        inNR outNR
      = .ok buf := by
  have hInv2 : ∀ s1 : OutState, s1.current_settings = s0.current_settings →
      SettingsInv dev s1 := by
    intro s1 h cs hcs
    exact hInv cs (h ▸ hcs)
  rcases hdr with _ | ⟨_ | e, c⟩ <;> simp only [displayStaticFrame] <;> split <;>
    first
      | (intro hr; simp at hr)
      | exact displayAfterHdr_prepared dev conv _ frame dm _ _ inNR outNR buf
          (hInv2 _ (by split <;> rfl))

/-- Helper: the finishing stage never changes the stored settings, so it
preserves the settings invariant. -/
theorem displayFrameFinish_inv (dev : Device) (conv : Converters)
    (s3 : OutState) (cs : Settings) (frame : NDArray) (pf : PixelFormat)
    (m : Gamut) (inNR outNR : Bool) (hInv : SettingsInv dev s3) :
    SettingsInv dev (displayFrameFinish dev conv s3 cs frame pf m inNR outNR).state := by
  rw [displayFrameFinish]
  split
  · exact hInv
  · split
    · split
      · intro cs2 hcs2
        exact hInv cs2 (by simpa using hcs2)
      · exact hInv
    · exact hInv

/-- Helper: for a device whose get_video_settings returns settings of the
queried mode, the setup branch stores settings satisfying the invariant. -/
theorem displaySetupAndFinish_inv (dev : Device) (conv : Converters)
    (s : OutState) (frame : NDArray) (dm : DisplayMode) (pf : PixelFormat)
    (m : Gamut) (inNR outNR : Bool)
    (hdev : ∀ d, (dev.gvs d).mode = d) (hInv : SettingsInv dev s) :
    SettingsInv dev (displaySetupAndFinish dev conv s frame dm pf m inNR outNR).state := by
  simp only [displaySetupAndFinish]
  split
  · apply displayFrameFinish_inv
    intro cs2 hcs2
    simp only [Option.some.injEq] at hcs2
    rw [← hcs2]
    constructor
    · show (dev.gvs dm).width = (dev.gvs (dev.gvs dm).mode).width
      rw [hdev dm]
    · show (dev.gvs dm).height = (dev.gvs (dev.gvs dm).mode).height
      rw [hdev dm]
  · exact hInv

/-- Helper: the settings guard preserves the invariant for a well-formed
device. -/
theorem displayAfterHdr_inv (dev : Device) (conv : Converters)
    (s : OutState) (frame : NDArray) (dm : DisplayMode) (pf : PixelFormat)
    (m : Gamut) (inNR outNR : Bool)
    (hdev : ∀ d, (dev.gvs d).mode = d) (hInv : SettingsInv dev s) :
    SettingsInv dev (displayAfterHdr dev conv s frame dm pf m inNR outNR).state := by
  rw [displayAfterHdr]
  split
  · rename_i cs hcs
    split
    · exact displayFrameFinish_inv dev conv s cs frame pf m inNR outNR hInv
    · exact displaySetupAndFinish_inv dev conv s frame dm pf m inNR outNR hdev hInv
  · exact displaySetupAndFinish_inv dev conv s frame dm pf m inNR outNR hdev hInv

/-- Helper: every display_static_frame call preserves the settings invariant on
a well-formed device, so the invariant of claim C4 holds in every reachable
state (it holds trivially in the initial state, whose stored settings are
none). -/
theorem displayStaticFrame_inv (dev : Device) (conv : Converters)
    (s0 : OutState) (frame : NDArray) (dm : DisplayMode) (pf0 : PixelFormat)
    (matrix : Option Gamut) (hdr : Option HdrArg) (inNR outNR : Bool)
    (hdev : ∀ d, (dev.gvs d).mode = d) (hInv : SettingsInv dev s0) :
    SettingsInv dev
      (displayStaticFrame dev conv s0 frame dm pf0 matrix hdr inNR outNR).state := by
  have hInv2 : ∀ s1 : OutState, s1.current_settings = s0.current_settings →
      SettingsInv dev s1 := by
    intro s1 h cs hcs
    exact hInv cs (h ▸ hcs)
  rcases hdr with _ | ⟨_ | e, c⟩
  · simp only [displayStaticFrame]
    split
    · exact hInv
    · exact displayAfterHdr_inv dev conv _ frame dm _ _ inNR outNR hdev
        (hInv2 _ (by split <;> rfl))
  · simp only [displayStaticFrame]
    split
    · exact hInv
    · exact hInv2 _ (by split <;> rfl)
  · simp only [displayStaticFrame]
    split
    · exact hInv
    · exact displayAfterHdr_inv dev conv _ frame dm _ _ inNR outNR hdev
        (hInv2 _ (by split <;> rfl))

/-- Claim C4: the conversion is stateless between calls.  For one fixed device
and converter bundle, two display_static_frame runs with identical call
arguments but arbitrary different prior histories (any two states satisfying
the settings reachability invariant) that both hand a frame to the device hand
it the identical frame. -/
theorem c4_stateless_conversion (dev : Device) (conv : Converters)
    (sA sB : OutState) (frame : NDArray) (dm : DisplayMode) (pf0 : PixelFormat)
    (matrix : Option Gamut) (hdr : Option HdrArg) (inNR outNR : Bool)
    (bufA bufB : NDArray)
    (hA : SettingsInv dev sA) (hB : SettingsInv dev sB)
    (hrA : (displayStaticFrame dev conv sA frame dm pf0 matrix hdr inNR outNR).prepared
      = some bufA)
    (hrB : (displayStaticFrame dev conv sB frame dm pf0 matrix hdr inNR outNR).prepared
      = some bufB) :
    bufA = bufB := by
  have h1 := displayStaticFrame_prepared dev conv sA frame dm pf0 matrix hdr
    inNR outNR bufA hA hrA
  have h2 := displayStaticFrame_prepared dev conv sB frame dm pf0 matrix hdr
    inNR outNR bufB hB hrB
  rw [h1] at h2
  simpa using h2

/-- Claim C4 witness: a fresh never-initialized object and an object that
previously ran PAL RGB12 output, given the same RGB12 uint16 call on the same
device, hand the device the same frame. -/
theorem c4_stateless_conversion_witness :
    (⟨.uint16, [2, 2, 3], []⟩ : NDArray) = (⟨.uint16, [2, 2, 3], []⟩ : NDArray) :=
  c4_stateless_conversion
    ⟨fun _ => sampleSettings, fun _ => true, true, fun _ => true, true⟩
    trivialConverters
    ⟨false, false, none, .Rec709, false, true⟩
    ⟨true, true, some ⟨.PAL, .RGB12, 2, 2⟩, .Rec601, true, false⟩
    ⟨.uint16, [2, 2, 3], []⟩ .HD1080p25 .RGB12 (some .Rec709) none false true
    ⟨.uint16, [2, 2, 3], []⟩ ⟨.uint16, [2, 2, 3], []⟩
    (by intro cs h; simp at h)
    (by intro cs h; simp at h; rw [← h]; exact ⟨rfl, rfl⟩)
    rfl rfl

/-- Claim C7: with no explicit matrix, display_static_frame selects Rec601 for
the SD display modes (NTSC, NTSC2398, PAL, NTSCp, PALp) and Rec709 for every
other mode; an explicit matrix is used unchanged for every mode. -/
theorem c7_default_matrix :
    (∀ dm : DisplayMode,
      dm = .NTSC ∨ dm = .NTSC2398 ∨ dm = .PAL ∨ dm = .NTSCp ∨ dm = .PALp →
      chooseMatrix none dm = .Rec601) ∧
    (∀ dm : DisplayMode,
      ¬ (dm = .NTSC ∨ dm = .NTSC2398 ∨ dm = .PAL ∨ dm = .NTSCp ∨ dm = .PALp) →
      chooseMatrix none dm = .Rec709) ∧
    (∀ (m : Gamut) (dm : DisplayMode), chooseMatrix (some m) dm = m) := by
  refine ⟨?_, ?_, fun m dm => rfl⟩
  · intro dm h
    rcases h with h | h | h | h | h <;> subst h <;> rfl
  · intro dm h
    have hmem : dm ∉ SD_MODES := by
      simp only [SD_MODES, List.mem_cons, List.mem_singleton, List.not_mem_nil]
      simpa using h
    rw [chooseMatrix, if_neg hmem]

/-- Claim C7 witness: the selection theorem applied at NTSC, at HD1080p25 and
to an explicit Rec2020 request. -/
theorem c7_default_matrix_witness :
    chooseMatrix none .NTSC = .Rec601 ∧
    chooseMatrix none .HD1080p25 = .Rec709 ∧
    chooseMatrix (some .Rec2020) .NTSC = .Rec2020 :=
  ⟨c7_default_matrix.1 .NTSC (Or.inl rfl),
    c7_default_matrix.2.1 .HD1080p25 (by decide),
    c7_default_matrix.2.2 .Rec2020 .NTSC⟩

/-! ## Capture path: HDR metadata decoding (capture_frame_with_metadata) -/

/-- One chromaticity coordinate pair. -/
structure ChromaXY where
  x : ℚ
  y : ℚ
deriving DecidableEq, Repr

/-- Value of one entry of the hdr_metadata dictionary built by
capture_frame_with_metadata: a primaries block, a white point, a mastering
luminance pair, or the content_light sub-dictionary. -/
inductive GroupVal where
  | primaries (red green blue : ChromaXY)
  | point (x y : ℚ)
  | luminance (maxL minL : ℚ)
  | light (entries : List (String × ℚ))
deriving DecidableEq, Repr

/-- The metadata fields of a CapturedFrame object as read by
capture_frame_with_metadata (blackmagic_io.py lines 1063-1099): five presence
flags and the value fields they guard. -/
structure CapturedFrameMeta where
  has_display_primaries : Bool
  display_primaries_red_x : ℚ
  display_primaries_red_y : ℚ
  display_primaries_green_x : ℚ
  display_primaries_green_y : ℚ
  display_primaries_blue_x : ℚ
  display_primaries_blue_y : ℚ
  has_white_point : Bool
  white_point_x : ℚ
  white_point_y : ℚ
  has_mastering_luminance : Bool
  max_display_mastering_luminance : ℚ
  min_display_mastering_luminance : ℚ
  has_max_cll : Bool
  max_content_light_level : ℚ
  has_max_fall : Bool
  max_frame_average_light_level : ℚ
deriving DecidableEq, Repr

/-- Embedding of the content_light dictionary construction (lines 1093-1097):
max_cll and max_fall are added independently under their flags. -/
def contentLightOf (cf : CapturedFrameMeta) : List (String × ℚ) :=
  (if cf.has_max_cll then [("max_cll", cf.max_content_light_level)] else []) ++
  (if cf.has_max_fall then [("max_fall", cf.max_frame_average_light_level)] else [])

/-- Embedding of the hdr_metadata dictionary construction (lines 1063-1099):
each group is appended only under its presence flag, and content_light only
when it is nonempty. -/
def hdrMetadataOf (cf : CapturedFrameMeta) : List (String × GroupVal) :=
  (if cf.has_display_primaries then
    [("display_primaries", .primaries
        ⟨cf.display_primaries_red_x, cf.display_primaries_red_y⟩
        ⟨cf.display_primaries_green_x, cf.display_primaries_green_y⟩
        ⟨cf.display_primaries_blue_x, cf.display_primaries_blue_y⟩)]
  else []) ++
  (if cf.has_white_point then
    [("white_point", .point cf.white_point_x cf.white_point_y)]
  else []) ++
  (if cf.has_mastering_luminance then
    [("mastering_luminance", .luminance cf.max_display_mastering_luminance
        cf.min_display_mastering_luminance)]
  else []) ++
  (if (contentLightOf cf).isEmpty then []
  else [("content_light", .light (contentLightOf cf))])

/-- Embedding of lines 1101-1102: the hdr_metadata key is added to the result
only when the dictionary is nonempty. -/
def captureHdrMetadata (cf : CapturedFrameMeta) : Option (List (String × GroupVal)) :=
  if (hdrMetadataOf cf).isEmpty then none else some (hdrMetadataOf cf)

/-- Whether the decode result carries the named metadata group. -/
def resultHasGroup (cf : CapturedFrameMeta) (k : String) : Bool :=
  match captureHdrMetadata cf with
  | none => false
  | some d => d.any fun e => e.1 == k

/-- Whether the decode result carries the named key inside its content_light
sub-dictionary. -/
def resultHasLightKey (cf : CapturedFrameMeta) (k : String) : Bool :=
  match captureHdrMetadata cf with
  | none => false
  | some d => d.any fun e =>
      match e.2 with
      | .light entries => e.1 == "content_light" && entries.any fun q => q.1 == k
      | _ => false

/-- Claim C8: each optional HDR metadata group is independently
presence-flagged in the decode result.  The result contains display_primaries,
white_point and mastering_luminance exactly under their flags, carries max_cll
and max_fall (inside content_light) exactly under has_max_cll and
has_max_fall, and the hdr_metadata key itself is absent exactly when all five
flags are false. -/
theorem c8_hdr_metadata_presence (cf : CapturedFrameMeta) :
    resultHasGroup cf "display_primaries" = cf.has_display_primaries ∧
    resultHasGroup cf "white_point" = cf.has_white_point ∧
    resultHasGroup cf "mastering_luminance" = cf.has_mastering_luminance ∧
    resultHasLightKey cf "max_cll" = cf.has_max_cll ∧
    resultHasLightKey cf "max_fall" = cf.has_max_fall ∧
    (captureHdrMetadata cf = none ↔
      cf.has_display_primaries = false ∧ cf.has_white_point = false ∧
      cf.has_mastering_luminance = false ∧ cf.has_max_cll = false ∧
      cf.has_max_fall = false) := by
  obtain ⟨p, prx, pry, pgx, pgy, pbx, pby, w, wx, wy, l, lmax, lmin, c, cv, f, fv⟩ := cf
  cases p <;> cases w <;> cases l <;> cases c <;> cases f <;>
    simp [resultHasGroup, resultHasLightKey, captureHdrMetadata, hdrMetadataOf,
      contentLightOf]

/-! ## Capture path: pixel decoding (_convert_frame_to_rgb and
_convert_frame_to_uint8) -/

/-- A captured frame as the decode path sees it: the raw byte stream and the
metadata used for dispatch. -/
structure CapturedFrame where
  data : Nat → Nat
  width : Nat
  height : Nat
  format : PixelFormat
  colorspace : Gamut

/-- The decode functions of the decklink_io C++ extension, treated as opaque
pure per-pixel functions. -/
structure CaptureConverters where
  yuv8_to_rgb_float : (Nat → Nat) → Nat → Nat → Gamut → Bool → (Nat → ℚ × ℚ × ℚ)
  yuv10_to_rgb_float : (Nat → Nat) → Nat → Nat → Gamut → Bool → (Nat → ℚ × ℚ × ℚ)
  rgb10_to_float : (Nat → Nat) → Nat → Nat → Bool → (Nat → ℚ × ℚ × ℚ)
  rgb12_to_float : (Nat → Nat) → Nat → Nat → Bool → (Nat → ℚ × ℚ × ℚ)
  yuv8_to_rgb_uint16 : (Nat → Nat) → Nat → Nat → Gamut → Bool → Bool → (Nat → Nat × Nat × Nat)
  yuv10_to_rgb_uint16 : (Nat → Nat) → Nat → Nat → Gamut → Bool → Bool → (Nat → Nat × Nat × Nat)
  rgb10_to_uint16 : (Nat → Nat) → Nat → Nat → Bool → Bool → (Nat → Nat × Nat × Nat)
  rgb12_to_uint16 : (Nat → Nat) → Nat → Nat → Bool → Bool → (Nat → Nat × Nat × Nat)

/-- Embedding of BlackmagicInput._convert_frame_to_rgb (blackmagic_io.py lines
1218-1274): dispatch on the captured format; the BGRA branch reorders bytes
and scales by 1/255 with no matrix, pixel i taking bytes 4i (B), 4i+1 (G),
4i+2 (R).  The result is the per-pixel value function. -/
def convert_frame_to_rgb (conv : CaptureConverters) (cf : CapturedFrame)
    (input_narrow_range : Bool) : Nat → ℚ × ℚ × ℚ :=
  match cf.format with
  | .YUV8 => conv.yuv8_to_rgb_float cf.data cf.width cf.height cf.colorspace
      input_narrow_range
  | .YUV10 => conv.yuv10_to_rgb_float cf.data cf.width cf.height cf.colorspace
      input_narrow_range
  | .RGB10 => conv.rgb10_to_float cf.data cf.width cf.height input_narrow_range
  | .RGB12 => conv.rgb12_to_float cf.data cf.width cf.height input_narrow_range
  | .BGRA => fun i =>
      ((cf.data (4 * i + 2) : ℚ) / 255, (cf.data (4 * i + 1) : ℚ) / 255,
        (cf.data (4 * i) : ℚ) / 255)

/-- Componentwise right shift by 8, the uint16 to uint8 narrowing of the
capture path. -/
def shift8Triple (t : Nat × Nat × Nat) : Nat × Nat × Nat :=
  (t.1 >>> 8, t.2.1 >>> 8, t.2.2 >>> 8)

/-- Embedding of BlackmagicInput._convert_frame_to_uint8 (lines 1152-1216):
the YUV and RGB wire formats decode to full-range uint16 and shift down to
uint8; the BGRA branch is a pure channel reorder. -/
def convert_frame_to_uint8 (conv : CaptureConverters) (cf : CapturedFrame)
    (input_narrow_range : Bool) : Nat → Nat × Nat × Nat :=
  match cf.format with
  | .YUV8 => fun i => shift8Triple (conv.yuv8_to_rgb_uint16 cf.data cf.width
      cf.height cf.colorspace input_narrow_range false i)
  | .YUV10 => fun i => shift8Triple (conv.yuv10_to_rgb_uint16 cf.data cf.width
      cf.height cf.colorspace input_narrow_range false i)
  | .RGB10 => fun i => shift8Triple (conv.rgb10_to_uint16 cf.data cf.width
      cf.height input_narrow_range false i)
  | .RGB12 => fun i => shift8Triple (conv.rgb12_to_uint16 cf.data cf.width
      cf.height input_narrow_range false i)
  | .BGRA => fun i => (cf.data (4 * i + 2), cf.data (4 * i + 1), cf.data (4 * i))

/-- Claim C9: decoding a captured BGRA frame to RGB float returns exactly
R = byte2 / 255, G = byte1 / 255, B = byte0 / 255 per pixel with no color
matrix, decoding to RGB uint8 is a pure channel reorder, and both results are
independent of the narrow-range flag and of the colorspace carried by the
frame. -/
theorem c9_bgra_decode (conv : CaptureConverters) (cf : CapturedFrame)
    (nr nr2 : Bool) (g : Gamut) (hf : cf.format = .BGRA) :
    convert_frame_to_rgb conv cf nr
      = (fun i => ((cf.data (4 * i + 2) : ℚ) / 255, (cf.data (4 * i + 1) : ℚ) / 255,
          (cf.data (4 * i) : ℚ) / 255)) ∧
    convert_frame_to_rgb conv cf nr = convert_frame_to_rgb conv cf nr2 ∧
    convert_frame_to_rgb conv { cf with colorspace := g } nr
      = convert_frame_to_rgb conv cf nr ∧
    convert_frame_to_uint8 conv cf nr
      = (fun i => (cf.data (4 * i + 2), cf.data (4 * i + 1), cf.data (4 * i))) ∧
    convert_frame_to_uint8 conv cf nr = convert_frame_to_uint8 conv cf nr2 ∧
    convert_frame_to_uint8 conv { cf with colorspace := g } nr
      = convert_frame_to_uint8 conv cf nr := by
  obtain ⟨d, w, h, fmt, cs⟩ := cf
  simp only at hf
  subst hf
  simp [convert_frame_to_rgb, convert_frame_to_uint8]

/-- Claim C9 witness: the decode theorem applied to a concrete BGRA frame
whose byte stream is the identity, with the two flag values and an alternate
colorspace. -/
theorem c9_bgra_decode_witness :
    convert_frame_to_rgb
        ⟨fun _ _ _ _ _ _ => (0, 0, 0), fun _ _ _ _ _ _ => (0, 0, 0),
          fun _ _ _ _ _ => (0, 0, 0), fun _ _ _ _ _ => (0, 0, 0),
          fun _ _ _ _ _ _ _ => (0, 0, 0), fun _ _ _ _ _ _ _ => (0, 0, 0),
          fun _ _ _ _ _ _ => (0, 0, 0), fun _ _ _ _ _ _ => (0, 0, 0)⟩
        ⟨fun i => i, 2, 2, .BGRA, .Rec709⟩ true
      = (fun i => (((4 * i + 2 : Nat) : ℚ) / 255, ((4 * i + 1 : Nat) : ℚ) / 255,
          ((4 * i : Nat) : ℚ) / 255)) ∧
    convert_frame_to_uint8
        ⟨fun _ _ _ _ _ _ => (0, 0, 0), fun _ _ _ _ _ _ => (0, 0, 0),
          fun _ _ _ _ _ => (0, 0, 0), fun _ _ _ _ _ => (0, 0, 0),
          fun _ _ _ _ _ _ _ => (0, 0, 0), fun _ _ _ _ _ _ _ => (0, 0, 0),
          fun _ _ _ _ _ _ => (0, 0, 0), fun _ _ _ _ _ _ => (0, 0, 0)⟩
        ⟨fun i => i, 2, 2, .BGRA, .Rec709⟩ true
      = (fun i => (4 * i + 2, 4 * i + 1, 4 * i)) := by
  have h := c9_bgra_decode
    ⟨fun _ _ _ _ _ _ => (0, 0, 0), fun _ _ _ _ _ _ => (0, 0, 0),
      fun _ _ _ _ _ => (0, 0, 0), fun _ _ _ _ _ => (0, 0, 0),
      fun _ _ _ _ _ _ _ => (0, 0, 0), fun _ _ _ _ _ _ _ => (0, 0, 0),
      fun _ _ _ _ _ _ => (0, 0, 0), fun _ _ _ _ _ _ => (0, 0, 0)⟩
    ⟨fun i => i, 2, 2, .BGRA, .Rec709⟩ true false .Rec601 rfl
  exact ⟨h.1, h.2.2.2.1⟩

/-! ## display_solid_color (blackmagic_io.py lines 362-458) -/

/-- Embedding of the integer color scaling of display_solid_color (lines 422,
440, 443): a 10-bit component is shifted left by six bits and stored in a
uint16 frame. -/
def colorToUint16 (c : Nat) : Nat := (c <<< 6) % 65536

/-- Componentwise integer color scaling. -/
def mapShiftColor (c : Nat × Nat × Nat) : Nat × Nat × Nat :=
  (colorToUint16 c.1, colorToUint16 c.2.1, colorToUint16 c.2.2)

/-- Embedding of the integer-path background default (lines 432-433): code 64
per channel when input_narrow_range, else 0. -/
def defaultBackgroundInt (input_narrow_range : Bool) : Nat :=
  if input_narrow_range then 64 else 0

/-- Python int() truncation of a rational toward zero. -/
def pyTrunc (q : ℚ) : ℤ := Int.tdiv q.num q.den

/-- Embedding of the patch rectangle computation (lines 445-453): truncated
pixel sizes and center, then clamped left, right, top, bottom bounds with
Python floor division. -/
def patchBounds (cx cy pw ph : ℚ) (w h : Nat) : ℤ × ℤ × ℤ × ℤ :=
  let ppw := pyTrunc (pw * w)
  let pph := pyTrunc (ph * h)
  let cpx := pyTrunc (cx * w)
  let cpy := pyTrunc (cy * h)
  (max 0 (cpx - Int.fdiv ppw 2), min (w : ℤ) (cpx + Int.fdiv (ppw + 1) 2),
    max 0 (cpy - Int.fdiv pph 2), min (h : ℤ) (cpy + Int.fdiv (pph + 1) 2))

/-- Whether pixel (x, y) lies in the slice frame[top:bottom, left:right]
assigned the patch color. -/
def inPatchRect (p : ℚ × ℚ × ℚ × ℚ) (w h x y : Nat) : Bool :=
  let bd := patchBounds p.1 p.2.1 p.2.2.1 p.2.2.2 w h
  decide (bd.2.2.1 ≤ (y : ℤ) ∧ (y : ℤ) < bd.2.2.2 ∧ bd.1 ≤ (x : ℤ) ∧ (x : ℤ) < bd.2.1)

/-- Embedding of the integer branch of display_solid_color (lines 417-455) as
the sample triple the built uint16 frame holds at pixel (x, y): the shifted
color everywhere without a patch; with a patch, the shifted color inside the
rectangle and the shifted background (defaulting per defaultBackgroundInt)
outside. -/
def solidColorFrameInt (color : Nat × Nat × Nat) (patch : Option (ℚ × ℚ × ℚ × ℚ))
    (background_color : Option (Nat × Nat × Nat)) (input_narrow_range : Bool)
    (w h x y : Nat) : Nat × Nat × Nat :=
  match patch with
  | none => mapShiftColor color
  | some p =>
    let bg := match background_color with
      | some bgc => bgc
      | none =>
        let bv := defaultBackgroundInt input_narrow_range
        (bv, bv, bv)
    if inPatchRect p w h x y then mapShiftColor color else mapShiftColor bg

/-- Embedding of the float branch of display_solid_color (lines 418-420,
429-430, 435-438) as the sample triple of the built float32 frame at pixel
(x, y): the background defaults to zero. -/
def solidColorFrameFloat (color : ℚ × ℚ × ℚ) (patch : Option (ℚ × ℚ × ℚ × ℚ))
    (background_color : Option (ℚ × ℚ × ℚ)) (w h x y : Nat) : ℚ × ℚ × ℚ :=
  match patch with
  | none => color
  | some p =>
    let bg := match background_color with
      | some bgc => bgc
      | none => ((0 : ℚ), (0 : ℚ), (0 : ℚ))
    if inPatchRect p w h x y then color else bg

/-- Claim C10: every integer color component c in range 0-1023 is written into
the uint16 frame as exactly 64 times c, so 1023 becomes 65472 and not 65535;
with a patch and no background_color, the integer-path background sample is 64
times code 64 when input_narrow_range and 64 times 0 otherwise, and the
float-path background defaults to 0.0. -/
theorem c10_solid_color_encoding (r g b : Nat)
    (hr : r ≤ 1023) (hg : g ≤ 1023) (hb : b ≤ 1023)
    (w h x y : Nat) (p : ℚ × ℚ × ℚ × ℚ) (nr : Bool) (fc : ℚ × ℚ × ℚ) :
    colorToUint16 r = 64 * r ∧
    colorToUint16 1023 = 65472 ∧ ¬ colorToUint16 1023 = 65535 ∧
    defaultBackgroundInt true = 64 ∧ defaultBackgroundInt false = 0 ∧
    solidColorFrameInt (r, g, b) none none nr w h x y = (64 * r, 64 * g, 64 * b) ∧
    (inPatchRect p w h x y = true →
      solidColorFrameInt (r, g, b) (some p) none nr w h x y
        = (64 * r, 64 * g, 64 * b)) ∧
    (inPatchRect p w h x y = false →
      solidColorFrameInt (r, g, b) (some p) none nr w h x y
        = (64 * defaultBackgroundInt nr, 64 * defaultBackgroundInt nr,
            64 * defaultBackgroundInt nr)) ∧
    (inPatchRect p w h x y = false →
      solidColorFrameFloat fc (some p) none w h x y = (0, 0, 0)) := by
  have hshift : ∀ c : Nat, c ≤ 1023 → colorToUint16 c = 64 * c := by
    intro c hc
    rw [colorToUint16, Nat.shiftLeft_eq]
    norm_num
    omega
  have hbv : defaultBackgroundInt nr ≤ 1023 := by
    cases nr <;> decide
  refine ⟨hshift r hr, by decide, by decide, rfl, rfl, ?_, ?_, ?_, ?_⟩
  · simp [solidColorFrameInt, mapShiftColor, hshift r hr, hshift g hg, hshift b hb]
  · intro hp
    simp [solidColorFrameInt, hp, mapShiftColor, hshift r hr, hshift g hg,
      hshift b hb]
  · intro hp
    simp [solidColorFrameInt, hp, mapShiftColor, hshift _ hbv]
  · intro hp
    simp [solidColorFrameFloat, hp]

/-- Claim C10 witness: the encoding theorem applied at the all-1023 color, a
2 by 2 frame, pixel (0, 0), a centered half-size patch and narrow-range
input. -/
theorem c10_solid_color_encoding_witness :
    colorToUint16 1023 = 64 * 1023 ∧
    solidColorFrameInt (1023, 1023, 1023) none none true 2 2 0 0
      = (64 * 1023, 64 * 1023, 64 * 1023) :=
  ⟨(c10_solid_color_encoding 1023 1023 1023 (by decide) (by decide) (by decide)
      2 2 0 0 (1 / 2, 1 / 2, 1 / 2, 1 / 2) true (1, 0, 0)).1,
    (c10_solid_color_encoding 1023 1023 1023 (by decide) (by decide) (by decide)
      2 2 0 0 (1 / 2, 1 / 2, 1 / 2, 1 / 2) true (1, 0, 0)).2.2.2.2.2.1⟩

end Blackmagic
